import Mathlib

/-
  Verification development for the tag-genius library pipeline
  (src/app.py): XML import, (name, artist) deduplicated persistence,
  LLM tag generation with a process-wide tag limit, and the
  spec-described original-metadata snapshot / export writer.

  Machine integers do not occur; Python strings are Lean Strings,
  Python None is Option.none, SQL NULL comparison semantics are made
  explicit, and Python exceptions are an Except layer.
-/

/-- Python truthiness of an optional string: None and the empty string are falsy. -/
def pyTruthy : Option String → Bool
  | none => false
  | some s => s ≠ ""

/-- Python string interpolation of an optional string: None prints as None. -/
def pyShow : Option String → String
  | none => "None"
  | some s => s

/-- A parsed JSON object of categorized tags: category name to list of tag strings,
in insertion order, as returned by json.loads on the LLM content. -/
abbrev TagDict := List (String × List String)

/-- Python dict lookup tags[c] with a default of the empty list. -/
def lookupCat (d : TagDict) (c : String) : List String :=
  ((d.find? (fun kv => kv.1 = c)).map (fun kv => kv.2)).getD []

/-- The fixed mock tag set returned by call_llm_for_tags when no
OPENAI_API_KEY is configured (src/app.py lines 147-154). -/
def mockTags : TagDict :=
  [("primary_genre", ["techno"]),
   ("sub_genre", ["hard techno", "industrial"]),
   ("energy_vibe", ["peak hour", "aggressive"]),
   ("situation_environment", ["main floor"]),
   ("components", ["vocal", "remix"]),
   ("time_period", ["2010s"])]

/-- Process-wide mutable state: the global tag_limit (src/app.py line 15). -/
structure AppState where
  tag_limit : Int
deriving DecidableEq, Repr

/-- The initial process state: tag_limit defaults to 1. -/
def initialState : AppState := ⟨1⟩

/-- Python exceptions that can escape the modelled code paths. -/
inductive PyExn where
  | indexError
  | attributeError
  | typeError
deriving DecidableEq, Repr

/-- One element of the choices list, as the code observes it through
choice.get(message, default-dict).get(content) followed by the
truthiness test and json.loads (src/app.py lines 197-200). The Option
wrapping used at the use site stands for a dict element whose message or
content key is absent or null (text_part None). -/
inductive LlmContent where
  /-- content is the empty string (falsy, treated as missing). -/
  | emptyStr
  /-- content is a string that json.loads fails to parse. -/
  | badJson
  /-- content is a string parsing to a JSON object, modelled as a
  TagDict. -/
  | parsed (d : TagDict)
  /-- the choice element itself is not a dict (null, number, string,
  list): choice.get raises an uncaught AttributeError. -/
  | choiceNotDict
  /-- the message value is present but not a dict: .get(content) raises
  an uncaught AttributeError. -/
  | messageNotDict
  /-- content is a truthy non-string (number, list, object): it passes
  the truthiness test and json.loads raises an uncaught TypeError. -/
  | contentTruthyNotStr
  /-- content is a falsy non-string (0, false, empty list or object):
  the truthiness test treats it as missing. -/
  | contentFalsyNotStr
deriving DecidableEq, Repr

/-- The outcome of the HTTP POST to the generation service, as observed
by call_llm_for_tags (src/app.py lines 193-197). Not modelled: a body
whose choices value is present but not a list (subscripting it raises an
uncaught TypeError, KeyError or AttributeError depending on its type);
no theorem below claims to enumerate every raising body shape. -/
inductive LlmResponse where
  /-- requests.post or raise_for_status raises a RequestException. -/
  | transportError
  /-- the response body fails to parse as JSON (response.json raises). -/
  | bodyNotJson
  /-- the body parses to a JSON value that is not an object, so
  api_result.get raises AttributeError. -/
  | bodyNotObject
  /-- the body parses to an object; choices is its choices list when the
  key is present (each element given by the code's observation of it),
  none when the key is absent (code then defaults to a single empty
  choice). -/
  | body (choices : Option (List (Option LlmContent)))
deriving DecidableEq, Repr

/-- Embedding of call_llm_for_tags (src/app.py lines 132-211). The first
component is the returned dict or the escaping Python exception; the
Boolean is true exactly when a network request was issued. The dict
parsed from the content is returned verbatim: no key or quota check. -/
def call_llm_for_tags (apiKey : Option String) (_st : AppState)
    (resp : LlmResponse) : Except PyExn TagDict × Bool :=
  if pyTruthy apiKey = false then
    (.ok mockTags, false)
  else
    (match resp with
      | .transportError => .ok []
      | .bodyNotJson => .ok []
      | .bodyNotObject => .error .attributeError
      | .body none => .ok []
      | .body (some []) => .error .indexError
      | .body (some (none :: _)) => .ok []
      | .body (some (some .emptyStr :: _)) => .ok []
      | .body (some (some .badJson :: _)) => .ok []
      | .body (some (some (.parsed d) :: _)) => .ok d
      | .body (some (some .choiceNotDict :: _)) => .error .attributeError
      | .body (some (some .messageNotDict :: _)) => .error .attributeError
      | .body (some (some .contentTruthyNotStr :: _)) => .error .typeError
      | .body (some (some .contentFalsyNotStr :: _)) => .ok []
      , true)

/-- The per-track context assembled by process_library and handed to the
generator (src/app.py lines 420-426): ARTIST, TITLE, GENRE, YEAR and the
json.dumps of the lexicon data. -/
structure TrackCtx where
  artist : Option String
  title : Option String
  genre : Option String
  year : Option String
  lexdump : String
deriving DecidableEq, Repr

/-- The prompt string built by call_llm_for_tags on the live path
(src/app.py lines 160-174), reading the tag limit at call time. -/
def buildPrompt (limit : Int) (c : TrackCtx) : String :=
  "You are a master music curator and a \x27Tag Genius.\x27 Your mission is to provide concise, structured, and expertly curated tags for a DJ\x27s library. For each category, provide exactly "
    ++ toString limit
    ++ " tags unless a category has fewer relevant tags, in which case provide all of them. Here is a track for you to tag:\n\nTrack: \x27"
    ++ pyShow c.artist ++ " - " ++ pyShow c.title
    ++ "\x27\nExisting Genre: " ++ pyShow c.genre
    ++ "\nYear: " ++ pyShow c.year
    ++ "\nLexicon Data: " ++ c.lexdump
    ++ "\n\nYour task is to provide tags as a JSON object with the following keys: \x27primary_genre\x27, \x27sub_genre\x27, \x27energy_vibe\x27, \x27situation_environment\x27, \x27components\x27, and \x27time_period\x27. Each key must map to a list of strings. Each tag should be concise and in lowercase. Only include \x27components\x27 and \x27time_period\x27 if they are highly relevant and genuinely add value. Respond with a JSON object only, no additional text."

/-- The prompt that call_llm_for_tags sends over the network: none when
the mock path short-circuits before any request, otherwise the prompt
built from the tag limit read from the process state at call time. -/
def llmRequest (apiKey : Option String) (st : AppState) (c : TrackCtx) :
    Option String :=
  if pyTruthy apiKey = false then none
  else some (buildPrompt st.tag_limit c)

/-- The Python value found under max_tags in the request JSON:
an int (Python bools are ints too) or a value of any other type. -/
inductive PyVal where
  | pyInt (n : Int)
  | pyOther
deriving DecidableEq, Repr

/-- The error message of the set_tag_limit endpoint. -/
def tagLimitErr : String :=
  "Invalid tag limit provided. Must be a non-negative integer."

/-- Embedding of the set_tag_limit endpoint (src/app.py lines 351-365):
given the current state and data.get(max_tags), returns the HTTP status
and message together with the new state. -/
def set_tag_limit (st : AppState) (v : Option PyVal) :
    (Nat × String) × AppState :=
  match v with
  | none => ((400, tagLimitErr), st)
  | some .pyOther => ((400, tagLimitErr), st)
  | some (.pyInt n) =>
      if n < 0 then ((400, tagLimitErr), st)
      else ((200, "Tag limit updated to " ++ toString n), ⟨n⟩)

/-- A TRACK element of the interchange XML: its attribute set. -/
structure Track where
  attrs : List (String × String)
deriving DecidableEq, Repr

/-- ElementTree attribute access track.get(k): None when absent. -/
def trackGet (t : Track) (k : String) : Option String :=
  ((t.attrs.find? (fun kv => kv.1 = k)).map (fun kv => kv.2))

/-- A row of the tracks table (src/app.py lines 34-63): name is NOT NULL,
every other column is nullable. The id column is the list position. -/
structure Row where
  name : String
  artist : Option String
  bpm : Option String
  track_key : Option String
  genre : Option String
  label : Option String
  comments : Option String
  grouping : Option String
  tags : Option String
deriving DecidableEq, Repr

/-- The persisted store: the rows of the tracks table in insertion order. -/
abbrev DB := List Row

/-- SQL comparison column = parameter under three-valued logic: a NULL on
either side never compares equal, so a row only matches a non-NULL
parameter equal to its non-NULL column value. -/
def sqlEqParam (col : Option String) (param : Option String) : Bool :=
  match col, param with
  | some x, some y => x = y
  | _, _ => false

/-- The WHERE clause of the duplicate check in insert_track_data
(src/app.py line 78): name = ? AND artist = ?. -/
def sqlMatchRow (r : Row) (name artist : Option String) : Bool :=
  sqlEqParam (some r.name) name && sqlEqParam r.artist artist

/-- Embedding of insert_track_data (src/app.py lines 69-99): skip when a
row matches (name, artist) under SQL equality; otherwise insert, which
the NOT NULL constraint on name turns into a caught error (no row) when
name is NULL. -/
def insert_track_data (db : DB)
    (name artist bpm track_key genre label comments grouping tags :
      Option String) : DB :=
  if db.any (fun r => sqlMatchRow r name artist) then db
  else
    match name with
    | none => db
    | some n => db ++ [⟨n, artist, bpm, track_key, genre, label, comments,
        grouping, tags⟩]

/-- json.dumps of a tag dict (string escaping elided: the value is stored
opaquely and never re-read by the modelled paths). -/
def jsonDumpsTags (d : TagDict) : String :=
  "\x7b" ++ String.intercalate ", "
    (d.map (fun kv => "\x22" ++ kv.1 ++ "\x22: [" ++ String.intercalate ", "
      (kv.2.map (fun s => "\x22" ++ s ++ "\x22")) ++ "]")) ++ "\x7d"

/-- The process environment of one import run: the configured credential,
the current process state, and oracles giving the network responses of
the lexicon service and of the generation service (both deterministic
functions of their request, as one fixed run of the outside world). -/
structure Env where
  apiKey : Option String
  st : AppState
  lex : Option String → Option String → String
  llm : TrackCtx → LlmResponse

/-- The track context process_library assembles for one TRACK element
(src/app.py lines 417-426), including the lexicon lookup result. -/
def mkCtx (env : Env) (t : Track) : TrackCtx :=
  ⟨trackGet t "Artist", trackGet t "Name", trackGet t "Genre",
   trackGet t "Year", env.lex (trackGet t "Artist") (trackGet t "Name")⟩

/-- The insert call of the process_library loop body (src/app.py line
433): the track attributes the loop extracted, plus the serialized tag
set. -/
def insertStep (db : DB) (t : Track) (tags : TagDict) : DB :=
  insert_track_data db (trackGet t "Name") (trackGet t "Artist")
    (trackGet t "AverageBpm") (trackGet t "Tonality") (trackGet t "Genre")
    (trackGet t "Label") (trackGet t "Comments") (trackGet t "Grouping")
    (some (jsonDumpsTags tags))

/-- The per-track loop of process_library (src/app.py lines 406-433):
enrich, generate tags, serialize, insert. An exception escaping
call_llm_for_tags aborts the remaining loop (it is only caught by the
whole-function handler); the Boolean records whether the loop finished. -/
def processTracks (env : Env) (db : DB) : List Track → DB × Bool
  | [] => (db, true)
  | t :: ts =>
      match (call_llm_for_tags env.apiKey env.st (env.llm (mkCtx env t))).1
      with
      | .error _ => (db, false)
      | .ok tags => processTracks env (insertStep db t tags) ts

/-- Embedding of process_library (src/app.py lines 394-438). The input is
the outcome of the parse stage (ET.parse + COLLECTION lookup): an
exception message, or the list of TRACK elements. A parse failure, or an
exception escaping the loop, is caught by the surrounding handler and
reported as a single error dict; rows inserted before an in-loop
exception stay committed. -/
def process_library (env : Env) (db : DB)
    (input : Except String (List Track)) : Except String String × DB :=
  match input with
  | .error e => (.error ("Failed to process XML: " ++ e), db)
  | .ok tracks =>
      match processTracks env db tracks with
      | (db2, true) =>
          (.ok "XML file processed and data inserted into the database.",
           db2)
      | (db2, false) => (.error "Failed to process XML: exception", db2)

/-- Embedding of the add_track endpoint (src/app.py lines 244-267): POST
/tracks inserts (name, artist) with no duplicate check after a Python
truthiness check on both fields. -/
def add_track (db : DB) (name artist : Option String) :
    (Nat × String) × DB :=
  match name, artist with
  | some n, some a =>
      if n = "" || a = "" then
        ((400, "Name and artist are required."), db)
      else
        ((201, "Track added successfully."),
         db ++ [⟨n, some a, none, none, none, none, none, none, none⟩])
  | _, _ => ((400, "Name and artist are required."), db)

/-- The dedup-key invariant as the spec states it: no two persisted rows
share an identical (name, artist) pair. -/
def noDupKeyB : DB → Bool
  | [] => true
  | r :: rs =>
      rs.all (fun r2 => !(r.name = r2.name && r.artist = r2.artist)) &&
      noDupKeyB rs

/-- One ordered pair of rows is acceptable under the invariant the code
actually maintains: the earlier row either has a NULL artist (SQL NULL
equality makes the duplicate check blind to it) or does not share its
(name, artist) pair with the later row. -/
def RowOkPair (r1 r2 : Row) : Prop :=
  r1.artist = none ∨ ¬(r1.name = r2.name ∧ r1.artist = r2.artist)

/-- The dedup-key invariant the code actually maintains: no two persisted
rows share an identical (name, artist) pair with a non-NULL artist. -/
def noDupKeyNNP (db : DB) : Prop := db.Pairwise RowOkPair

/-- A test environment: no credential configured, default state, fixed
network oracles. -/
def mockEnv : Env :=
  ⟨none, initialState, fun _ _ => "x", fun _ => .transportError⟩

/-- A TRACK element carrying a Name but no Artist attribute. -/
def trackNoArtist : Track := ⟨[("Name", "a")]⟩

/-- A TRACK element carrying both a Name and an Artist attribute. -/
def trackFull : Track := ⟨[("Name", "c"), ("Artist", "d")]⟩

/-- A TRACK element carrying an Artist but no Name attribute. -/
def trackNoName : Track := ⟨[("Artist", "b")]⟩

/-- Modelled from the spec: the six tag categories in priority order
(spec section 4.4); used by the export writer, which is absent from
src/. -/
def categoryOrder : List String :=
  ["primary_genre", "sub_genre", "energy_vibe", "situation_environment",
   "components", "time_period"]

/-- Modelled from the spec: the flat, comma-joined string of all tags
across the six categories in priority order, elements of a category in
stored order (spec section 4.5); the export writer is absent from src/. -/
def flatTagList (tags : TagDict) : String :=
  String.intercalate ", " (categoryOrder.map (fun c => lookupCat tags c)).flatten

/-- Modelled from the spec: a persisted record as the spec data model
describes it (spec section 3) — the full original attribute snapshot,
captured at import, plus the generated tag set; both are absent from the
src/ snapshot of the code. -/
structure SpecRecord where
  original_metadata : Option (List (String × String))
  generated_tags : TagDict
deriving DecidableEq, Repr

/-- Modelled from the spec: the export writer's attribute merge for one
record (spec section 4.5): with no generated tags both fields stay
exactly as captured; otherwise Grouping and Comments are updated
independently with the non-empty/empty branching. -/
def exportTrackAttrs (attrs : List (String × String)) (tags : TagDict) :
    List (String × String) :=
  let tl := flatTagList tags
  if tl = "" then attrs
  else
    attrs.map (fun kv =>
      if kv.1 = "Grouping" then
        (kv.1, if kv.2 = "" then tl else kv.2 ++ " | " ++ tl)
      else if kv.1 = "Comments" then
        (kv.1, if kv.2 = "" then "Generated Tags: " ++ tl
               else kv.2 ++ " | Generated Tags: " ++ tl)
      else kv)

/-- Modelled from the spec: export of one persisted record (spec section
4.5): a record without an original_metadata snapshot is skipped (none);
otherwise the snapshot is the base attribute set of the emitted track
element. -/
def exportRecord (r : SpecRecord) : Option (List (String × String)) :=
  match r.original_metadata with
  | none => none
  | some attrs => some (exportTrackAttrs attrs r.generated_tags)

/-! Helper lemmas about the persistence layer. -/

lemma mem_insert_track_data (db : DB) (r : Row)
    (name artist bpm tk g l c gr tg : Option String) (h : r ∈ db) :
    r ∈ insert_track_data db name artist bpm tk g l c gr tg := by
  by_cases hd : (db.any fun row => sqlMatchRow row name artist) = true
  · simpa [insert_track_data, hd] using h
  · cases name with
    | none => simpa [insert_track_data, hd] using h
    | some n =>
        simp only [insert_track_data, hd, if_false, Bool.false_eq_true]
        exact List.mem_append_left _ h

lemma insert_track_data_skip (db : DB)
    (name artist bpm tk g l c gr tg : Option String)
    (h : (db.any fun r => sqlMatchRow r name artist) = true) :
    insert_track_data db name artist bpm tk g l c gr tg = db := by
  simp [insert_track_data, h]

lemma insert_track_data_match_exists (db : DB) (n a : String)
    (bpm tk g l c gr tg : Option String) :
    ∃ r ∈ insert_track_data db (some n) (some a) bpm tk g l c gr tg,
      sqlMatchRow r (some n) (some a) = true := by
  by_cases hd : (db.any fun r => sqlMatchRow r (some n) (some a)) = true
  · obtain ⟨r, hr, hm⟩ := List.any_eq_true.mp hd
    exact ⟨r, by simpa [insert_track_data, hd] using hr, hm⟩
  · refine ⟨⟨n, some a, bpm, tk, g, l, c, gr, tg⟩, ?_, ?_⟩
    · simp [insert_track_data, hd]
    · simp [sqlMatchRow, sqlEqParam]

lemma insertStep_nameless (db : DB) (t : Track) (tags : TagDict)
    (h : trackGet t "Name" = none) : insertStep db t tags = db := by
  simp [insertStep, h, insert_track_data, sqlMatchRow, sqlEqParam]

lemma insertStep_mem (db : DB) (t : Track) (tags : TagDict) (r : Row)
    (h : r ∈ db) : r ∈ insertStep db t tags :=
  mem_insert_track_data db r _ _ _ _ _ _ _ _ _ h

lemma insertStep_match_exists (db : DB) (t : Track) (tags : TagDict)
    (n a : String) (hn : trackGet t "Name" = some n)
    (ha : trackGet t "Artist" = some a) :
    ∃ r ∈ insertStep db t tags, sqlMatchRow r (some n) (some a) = true := by
  unfold insertStep
  rw [hn, ha]
  exact insert_track_data_match_exists db n a _ _ _ _ _ _ _

lemma mem_processTracks (env : Env) (ts : List Track) (db : DB) (r : Row)
    (h : r ∈ db) : r ∈ (processTracks env db ts).1 := by
  induction ts generalizing db with
  | nil => simpa [processTracks] using h
  | cons t ts ih =>
      cases hg : (call_llm_for_tags env.apiKey env.st
          (env.llm (mkCtx env t))).1 with
      | error e => simpa [processTracks, hg] using h
      | ok tags =>
          simpa [processTracks, hg] using
            ih (insertStep db t tags) (insertStep_mem db t tags r h)

lemma processTracks_reimport (env : Env) (ts : List Track)
    (h : ∀ t ∈ ts, trackGet t "Artist" ≠ none) :
    ∀ db : DB, processTracks env (processTracks env db ts).1 ts
      = processTracks env db ts := by
  induction ts with
  | nil => intro db; rfl
  | cons t ts ih =>
      intro db
      have ht : trackGet t "Artist" ≠ none := h t (by simp)
      have hts : ∀ u ∈ ts, trackGet u "Artist" ≠ none :=
        fun u hu => h u (by simp [hu])
      cases hg : (call_llm_for_tags env.apiKey env.st
          (env.llm (mkCtx env t))).1 with
      | error e => simp [processTracks, hg]
      | ok tags =>
          have h1 : processTracks env db (t :: ts)
              = processTracks env (insertStep db t tags) ts := by
            simp [processTracks, hg]
          have hskip : insertStep (processTracks env (insertStep db t tags)
              ts).1 t tags = (processTracks env (insertStep db t tags) ts).1
              := by
            cases hname : trackGet t "Name" with
            | none => exact insertStep_nameless _ _ _ hname
            | some n =>
                obtain ⟨a, ha⟩ := Option.ne_none_iff_exists'.mp ht
                obtain ⟨r, hrmem, hrmatch⟩ :=
                  insertStep_match_exists db t tags n a hname ha
                have hrD : r ∈ (processTracks env (insertStep db t tags)
                    ts).1 := mem_processTracks env ts _ r hrmem
                have hany : ((processTracks env (insertStep db t tags)
                    ts).1.any fun row => sqlMatchRow row (trackGet t "Name")
                      (trackGet t "Artist")) = true := by
                  rw [hname, ha]
                  exact List.any_eq_true.mpr ⟨r, hrD, hrmatch⟩
                exact insert_track_data_skip _ _ _ _ _ _ _ _ _ _ hany
          calc processTracks env (processTracks env db (t :: ts)).1 (t :: ts)
              = processTracks env (insertStep (processTracks env
                  (insertStep db t tags) ts).1 t tags) ts := by
                rw [h1]; simp [processTracks, hg]
            _ = processTracks env (processTracks env (insertStep db t tags)
                  ts).1 ts := by rw [hskip]
            _ = processTracks env (insertStep db t tags) ts := ih hts _
            _ = processTracks env db (t :: ts) := (h1).symm

lemma process_library_snd (env : Env) (db : DB) (tracks : List Track) :
    (process_library env db (.ok tracks)).2 = (processTracks env db
      tracks).1 := by
  rcases hpt : processTracks env db tracks with ⟨d, f⟩
  cases f <;> simp [process_library, hpt]

/-! Claim theorems. -/

/-- C4: when no generation-service credential is configured, the tag
generator performs no network call (second component false) and returns
exactly the fixed mock tag set, for every track context and every
possible state of the network. -/
theorem mock_fallback_determinism (k : Option String) (st : AppState)
    (resp : LlmResponse) (h : pyTruthy k = false) :
    call_llm_for_tags k st resp =
      (.ok [("primary_genre", ["techno"]),
            ("sub_genre", ["hard techno", "industrial"]),
            ("energy_vibe", ["peak hour", "aggressive"]),
            ("situation_environment", ["main floor"]),
            ("components", ["vocal", "remix"]),
            ("time_period", ["2010s"])], false) := by
  simp [call_llm_for_tags, h, mockTags]

/-- Witness for C4: with the credential absent the generator returns the
mock set without touching the network, on a concrete response. -/
theorem mock_fallback_determinism_witness :
    call_llm_for_tags none initialState .transportError =
      (.ok [("primary_genre", ["techno"]),
            ("sub_genre", ["hard techno", "industrial"]),
            ("energy_vibe", ["peak hour", "aggressive"]),
            ("situation_environment", ["main floor"]),
            ("components", ["vocal", "remix"]),
            ("time_period", ["2010s"])], false) :=
  mock_fallback_determinism none initialState .transportError rfl

/-- C1 counterexample: at the default process state (tag_limit = 1) and
with no credential configured, the generator returns the mock set whose
sub_genre category holds 2 tags, exceeding the Tag-Limit value in force
at generation time, so the quota claim fails as stated. -/
theorem quota_counterexample :
    call_llm_for_tags none initialState .transportError
      = (.ok mockTags, false)
    ∧ lookupCat mockTags "sub_genre" = ["hard techno", "industrial"]
    ∧ ¬(((lookupCat mockTags "sub_genre").length : Int)
        ≤ initialState.tag_limit) := by
  refine ⟨rfl, rfl, by decide⟩

/-- C1 amended: the generator does not enforce any quota on its output.
The live path returns a parsed response mapping verbatim, whatever the
category sizes; the mock path ignores the tag limit and returns the
fixed set with category sizes 1, 2, 2, 1, 2, 1. The limit only shapes
the request prompt. -/
theorem generator_quota_unenforced (k : Option String) (st : AppState)
    (resp : LlmResponse) (d : TagDict) (h : pyTruthy k = true) :
    call_llm_for_tags k st (.body (some [some (.parsed d)])) = (.ok d, true)
    ∧ call_llm_for_tags none st resp = (.ok mockTags, false)
    ∧ (lookupCat mockTags "primary_genre").length = 1
    ∧ (lookupCat mockTags "sub_genre").length = 2
    ∧ (lookupCat mockTags "energy_vibe").length = 2
    ∧ (lookupCat mockTags "situation_environment").length = 1
    ∧ (lookupCat mockTags "components").length = 2
    ∧ (lookupCat mockTags "time_period").length = 1 := by
  exact ⟨by simp [call_llm_for_tags, h], rfl, rfl, rfl, rfl, rfl, rfl, rfl⟩

/-- Witness for the amended C1: a configured credential and a parsed
response with an oversized category are returned verbatim. -/
theorem generator_quota_unenforced_witness :
    call_llm_for_tags (some "k") initialState
        (.body (some [some (.parsed [("primary_genre", ["a", "b", "c"])])]))
      = (.ok [("primary_genre", ["a", "b", "c"])], true)
    ∧ call_llm_for_tags none initialState .transportError
      = (.ok mockTags, false) :=
  ⟨(generator_quota_unenforced (some "k") initialState .transportError
      [("primary_genre", ["a", "b", "c"])] rfl).1,
   (generator_quota_unenforced (some "k") initialState .transportError
      [("primary_genre", ["a", "b", "c"])] rfl).2.1⟩

/-- C8 counterexample: a response whose content parses to an object
missing five of the six category keys is returned verbatim, not replaced
by an empty mapping, and a response with a present-but-empty choices
list raises an uncaught IndexError, so the claim fails as stated. -/
theorem generator_absorb_counterexample :
    call_llm_for_tags (some "k") initialState
        (.body (some [some (.parsed [("primary_genre", ["house"])])]))
      = (.ok [("primary_genre", ["house"])], true)
    ∧ ([("primary_genre", ["house"])] : TagDict) ≠ []
    ∧ (call_llm_for_tags (some "k") initialState (.body (some []))).1
      = .error .indexError := by
  refine ⟨rfl, by decide, rfl⟩

/-- C8 amended: with a credential configured, the generator absorbs
transport failures, unparseable bodies, an absent choices key, and
missing, empty, falsy or unparseable string message content, returning
an empty mapping in each case; a parsed content mapping is returned
verbatim even when category keys are missing; and uncaught exceptions do
escape to the caller: AttributeError when the parsed body, a choice
element, or its message value is not an object, IndexError when the
choices list is present but empty, and TypeError when a truthy content
value is not a string. -/
theorem generator_error_absorption (k : Option String) (st : AppState)
    (h : pyTruthy k = true) :
    call_llm_for_tags k st .transportError = (.ok [], true)
    ∧ call_llm_for_tags k st .bodyNotJson = (.ok [], true)
    ∧ call_llm_for_tags k st (.body none) = (.ok [], true)
    ∧ (∀ rest, call_llm_for_tags k st (.body (some (none :: rest)))
        = (.ok [], true))
    ∧ (∀ rest, call_llm_for_tags k st
        (.body (some (some .emptyStr :: rest))) = (.ok [], true))
    ∧ (∀ rest, call_llm_for_tags k st
        (.body (some (some .badJson :: rest))) = (.ok [], true))
    ∧ (∀ rest, call_llm_for_tags k st
        (.body (some (some .contentFalsyNotStr :: rest))) = (.ok [], true))
    ∧ (∀ d rest, call_llm_for_tags k st
        (.body (some (some (.parsed d) :: rest))) = (.ok d, true))
    ∧ call_llm_for_tags k st .bodyNotObject
      = (.error .attributeError, true)
    ∧ call_llm_for_tags k st (.body (some []))
      = (.error .indexError, true)
    ∧ (∀ rest, call_llm_for_tags k st
        (.body (some (some .choiceNotDict :: rest)))
      = (.error .attributeError, true))
    ∧ (∀ rest, call_llm_for_tags k st
        (.body (some (some .messageNotDict :: rest)))
      = (.error .attributeError, true))
    ∧ (∀ rest, call_llm_for_tags k st
        (.body (some (some .contentTruthyNotStr :: rest)))
      = (.error .typeError, true)) := by
  refine ⟨by simp [call_llm_for_tags, h], by simp [call_llm_for_tags, h],
    by simp [call_llm_for_tags, h],
    fun rest => by simp [call_llm_for_tags, h],
    fun rest => by simp [call_llm_for_tags, h],
    fun rest => by simp [call_llm_for_tags, h],
    fun rest => by simp [call_llm_for_tags, h],
    fun d rest => by simp [call_llm_for_tags, h],
    by simp [call_llm_for_tags, h], by simp [call_llm_for_tags, h],
    fun rest => by simp [call_llm_for_tags, h],
    fun rest => by simp [call_llm_for_tags, h],
    fun rest => by simp [call_llm_for_tags, h]⟩

/-- Witness for the amended C8: a transport failure is absorbed into an
empty mapping, and an empty choices list raises IndexError. -/
theorem generator_error_absorption_witness :
    call_llm_for_tags (some "k") initialState .transportError
      = (.ok [], true)
    ∧ call_llm_for_tags (some "k") initialState (.body (some []))
      = (.error .indexError, true) :=
  ⟨(generator_error_absorption (some "k") initialState rfl).1,
   (generator_error_absorption (some "k") initialState
      rfl).2.2.2.2.2.2.2.2.2.1⟩

/-- C9: an import input that fails XML parsing makes the whole import
return a single descriptive error and leaves the persisted store
untouched, whatever its prior contents. -/
theorem malformed_xml_aborts_import (env : Env) (db : DB) (e : String) :
    process_library env db (.error e)
      = (.error ("Failed to process XML: " ++ e), db) := rfl

/-- C10: set_tag_limit rejects an absent, non-integer or negative
max_tags with a 400 response, keeping the previous limit; a non-negative
integer is accepted, stored, and is the limit a subsequent live
generation call reads into its prompt. -/
theorem set_tag_limit_validation (st : AppState) (v : Option PyVal) :
    (v = none → set_tag_limit st v = ((400, tagLimitErr), st))
    ∧ (v = some .pyOther → set_tag_limit st v = ((400, tagLimitErr), st))
    ∧ (∀ n : Int, v = some (.pyInt n) → n < 0 →
        set_tag_limit st v = ((400, tagLimitErr), st))
    ∧ (∀ n : Int, v = some (.pyInt n) → 0 ≤ n →
        set_tag_limit st v
          = ((200, "Tag limit updated to " ++ toString n), ⟨n⟩)
        ∧ ∀ k c, pyTruthy k = true →
            llmRequest k (set_tag_limit st v).2 c
              = some (buildPrompt n c)) := by
  refine ⟨?_, ?_, ?_, ?_⟩
  · rintro rfl; rfl
  · rintro rfl; rfl
  · rintro n rfl hneg
    simp [set_tag_limit, hneg]
  · rintro n rfl hpos
    have hne : ¬(n < 0) := not_lt.mpr hpos
    refine ⟨by simp [set_tag_limit, hne], ?_⟩
    intro k c hk
    simp [set_tag_limit, hne, llmRequest, hk]

/-- Witness for C10: setting the limit to 3 succeeds and updates the
state; an absent max_tags is rejected and the state is kept. -/
theorem set_tag_limit_validation_witness :
    set_tag_limit ⟨1⟩ (some (.pyInt 3))
      = ((200, "Tag limit updated to " ++ toString (3 : Int)), ⟨3⟩)
    ∧ set_tag_limit ⟨1⟩ none = ((400, tagLimitErr), ⟨1⟩) :=
  ⟨((set_tag_limit_validation ⟨1⟩ (some (.pyInt 3))).2.2.2 3 rfl
      (by decide)).1,
   (set_tag_limit_validation ⟨1⟩ none).1 rfl⟩

/-- C2: exporting a record whose generated tag set is empty reproduces
its full original_metadata attribute set unchanged, Grouping and
Comments included, whatever attributes the snapshot holds. -/
theorem export_round_trip_preservation (r : SpecRecord)
    (attrs : List (String × String))
    (h1 : r.original_metadata = some attrs)
    (h2 : r.generated_tags = []) :
    exportRecord r = some attrs := by
  have htl : flatTagList [] = "" := rfl
  simp [exportRecord, h1, h2, exportTrackAttrs, htl]

/-- Witness for C2: a concrete four-attribute snapshot, Grouping and
Comments included plus an attribute the system never models, is exported
verbatim when the tag set is empty. -/
theorem export_round_trip_preservation_witness :
    exportRecord ⟨some [("Name", "a"), ("Grouping", "G"),
        ("Comments", "C"), ("Location", "f")], []⟩
      = some [("Name", "a"), ("Grouping", "G"), ("Comments", "C"),
          ("Location", "f")] :=
  export_round_trip_preservation _ _ rfl rfl

/-- C3 failing input, evaluated on the import code in src/: importing a
track whose element carries Name, Artist and an attribute the system
does not model (Location) persists exactly the eight-column row plus the
serialized tags — a record identical to that of the same track without
the Location attribute. The store (Row) has no original_metadata column
at all, so the supplied attribute is dropped rather than snapshotted. -/
theorem original_metadata_not_captured :
    (process_library mockEnv []
        (.ok [⟨[("Name", "a"), ("Artist", "b"), ("Location", "f")]⟩])).2
      = [⟨"a", some "b", none, none, none, none, none, none,
          some (jsonDumpsTags mockTags)⟩]
    ∧ (process_library mockEnv []
        (.ok [⟨[("Name", "a"), ("Artist", "b"), ("Location", "f")]⟩])).2
      = (process_library mockEnv []
        (.ok [⟨[("Name", "a"), ("Artist", "b")]⟩])).2 :=
  ⟨rfl, rfl⟩

/-- C5 counterexample: a file with one track that has a Name but no
Artist persists one record on the first import and a second record on
re-import, because the SQL duplicate check never matches a NULL artist,
so import is not idempotent as claimed. -/
theorem reimport_counterexample :
    ((process_library mockEnv [] (.ok [trackNoArtist])).2).length = 1
    ∧ ((process_library mockEnv
        (process_library mockEnv [] (.ok [trackNoArtist])).2
        (.ok [trackNoArtist])).2).length = 2 :=
  ⟨rfl, rfl⟩

/-- C5 amended: for a file in which every track carries an Artist
attribute, importing it a second time leaves the persisted store exactly
as after the first import: every (name, artist) pair persisted by the
first import is matched by the duplicate check on re-import, and
nameless tracks insert nothing on either run. Tracks with a missing
Artist are exempt, since a NULL artist never satisfies the SQL equality
of the duplicate check. -/
theorem reimport_idempotent_nonnull_artist (env : Env) (db : DB)
    (tracks : List Track)
    (h : ∀ t ∈ tracks, trackGet t "Artist" ≠ none) :
    process_library env (process_library env db (.ok tracks)).2
        (.ok tracks)
      = process_library env db (.ok tracks) := by
  have hp := processTracks_reimport env tracks h db
  have h2 := process_library_snd env db tracks
  rcases hpt : processTracks env db tracks with ⟨d, f⟩
  rw [hpt] at hp h2
  have : process_library env (process_library env db (.ok tracks)).2
      (.ok tracks) = process_library env d (.ok tracks) := by rw [h2]
  rw [this]
  cases f <;> simp [process_library, hp, hpt]

/-- Witness for the amended C5: re-importing a one-track file whose
track has both Name and Artist changes nothing. -/
theorem reimport_idempotent_nonnull_artist_witness :
    process_library mockEnv
        (process_library mockEnv [] (.ok [trackFull])).2 (.ok [trackFull])
      = process_library mockEnv [] (.ok [trackFull]) :=
  reimport_idempotent_nonnull_artist mockEnv [] [trackFull] (by decide)

/-- C6 counterexample: starting from a store satisfying the claimed
invariant, one call of the track-creation endpoint with an already
persisted (name, artist) pair produces two records sharing the pair, so
the endpoint does not preserve the invariant. -/
theorem dedup_invariant_counterexample :
    noDupKeyB (add_track [] (some "a") (some "b")).2 = true
    ∧ noDupKeyB (add_track (add_track [] (some "a") (some "b")).2
        (some "a") (some "b")).2 = false :=
  ⟨rfl, rfl⟩

/-- C6 amended: the import-pipeline insert preserves the invariant that
no two persisted records share an identical (name, artist) pair with a
non-NULL artist; records with a NULL artist are exempt because the SQL
duplicate check is blind to them, and the track-creation endpoint, which
performs no duplicate check at all, does not preserve the invariant. -/
theorem insert_preserves_dedup_invariant (db : DB)
    (name artist bpm tk g l c gr tg : Option String)
    (h : noDupKeyNNP db) :
    noDupKeyNNP (insert_track_data db name artist bpm tk g l c gr tg) := by
  by_cases hd : (db.any fun r => sqlMatchRow r name artist) = true
  · simpa [insert_track_data, hd]
  · cases name with
    | none => simpa [insert_track_data, hd]
    | some n =>
        simp only [insert_track_data, hd, if_false, Bool.false_eq_true]
        rw [noDupKeyNNP, List.pairwise_append]
        refine ⟨h, List.pairwise_singleton _ _, ?_⟩
        intro r hr x hx
        rw [List.mem_singleton] at hx
        subst hx
        cases hra : r.artist with
        | none => exact Or.inl hra
        | some b =>
            right
            rintro ⟨hname, hart⟩
            rw [hra] at hart
            cases artist with
            | none => simp at hart
            | some a =>
                apply hd
                refine List.any_eq_true.mpr ⟨r, hr, ?_⟩
                have hba : b = a := Option.some_injective _ hart
                simp [sqlMatchRow, sqlEqParam, hra, hname, hba]

/-- Witness for the amended C6: inserting a fresh (name, artist) pair
into a one-row store keeps the invariant. -/
theorem insert_preserves_dedup_invariant_witness :
    noDupKeyNNP (insert_track_data
      [⟨"a", some "b", none, none, none, none, none, none, none⟩]
      (some "c") (some "d") none none none none none none none) :=
  insert_preserves_dedup_invariant _ _ _ _ _ _ _ _ _ _
    (by simp [noDupKeyNNP])

/-- C7: a track element with an Artist attribute but no Name attribute
inserts no record (the NOT NULL constraint failure is caught inside the
insert) and the loop goes on to process the remaining tracks of the
file, provided the generator call for that track returns rather than
raising. -/
theorem skip_nameless_track (env : Env) (db : DB) (t : Track)
    (rest : List Track) (tags : TagDict)
    (h1 : trackGet t "Name" = none)
    (_h2 : trackGet t "Artist" ≠ none)
    (h3 : (call_llm_for_tags env.apiKey env.st
        (env.llm (mkCtx env t))).1 = .ok tags) :
    processTracks env db (t :: rest) = processTracks env db rest := by
  have hins := insertStep_nameless db t tags h1
  simp [processTracks, h3, hins]

/-- Witness for C7: a nameless track followed by a full track leaves
exactly the processing of the full track. -/
theorem skip_nameless_track_witness :
    processTracks mockEnv [] (trackNoName :: [trackFull])
      = processTracks mockEnv [] [trackFull] :=
  skip_nameless_track mockEnv [] trackNoName [trackFull] mockTags rfl
    (by decide) rfl
